import Mathlib

/-!
Shallow embedding of the NP Atobarai payment-gateway plugin
(`saleor/payment/gateways/np_atobarai/plugin.py`) and of the expected-value
arithmetic of the e2e tax test
(`saleor/tests/e2e/orders/taxes/test_order_calculate_simple_taxes_product_tax_class.py`).

Python values that flow through the plugin configuration are embedded as
`PyValue` (None, booleans, strings); Python dict subscription that can raise
`KeyError` is embedded as `Except PyError`; the external `api` module
(health check, capture/refund/void/process operations) is not part of the
excerpt and is passed in as function parameters, so every theorem quantifies
over the external behaviour.
-/

namespace NPAtobarai

/-- Embedding of the Python values stored in a plugin configuration:
`None`, booleans and strings. -/
inductive PyValue where
  | none
  | bool (b : Bool)
  | str (s : String)
  deriving DecidableEq, Repr

/-- Python truthiness of a configuration value: `None` and the empty string
are falsy, a boolean is its own truth value, a non-empty string is truthy. -/
def PyValue.truthy : PyValue → Bool
  | .none => false
  | .bool b => b
  | .str s => !s.isEmpty

/-- Embedding of `MERCHANT_CODE = "merchant_code"` (plugin.py line 25). -/
def MERCHANT_CODE : String := "merchant_code"

/-- Embedding of `SP_CODE = "sp_code"` (plugin.py line 26). -/
def SP_CODE : String := "sp_code"

/-- Embedding of `TERMINAL_ID = "terminal_id"` (plugin.py line 27). -/
def TERMINAL_ID : String := "terminal_id"

/-- Embedding of `USE_SANDBOX = "use_sandbox"` (plugin.py line 28). -/
def USE_SANDBOX : String := "use_sandbox"

/-- Embedding of `GATEWAY_NAME = "NP後払い"` (plugin.py line 13). -/
def GATEWAY_NAME : String := "NP後払い"

/-- One entry of a stored plugin configuration: a dict
`{"name": ..., "value": ...}`. -/
structure ConfigItem where
  name : String
  value : PyValue
  deriving DecidableEq, Repr

/-- The dict comprehension `{item["name"]: item["value"] for item in items}`:
when a name repeats, the later item overrides the earlier one; lookup of an
absent key yields `Option.none` (a `KeyError` in Python). -/
def dictOf (items : List ConfigItem) : String → Option PyValue :=
  fun k => (items.reverse.find? (fun i => i.name == k)).map ConfigItem.value

/-- Errors a method body can raise: a Django `ValidationError` or a
`KeyError` from dict subscription. -/
inductive PluginErrorCode where
  | PLUGIN_MISCONFIGURED
  deriving DecidableEq, Repr

/-- A Django `ValidationError` as raised by the plugin: a message and an
error code (`saleor.plugins.error_codes.PluginErrorCode`). -/
structure ValidationError where
  message : String
  code : PluginErrorCode
  deriving DecidableEq, Repr

/-- A Python exception raised by the embedded method bodies. -/
inductive PyError where
  | validation (e : ValidationError)
  | keyError (k : String)
  deriving DecidableEq, Repr

/-- Python dict subscription `conf[k]`: the value when the key is present,
a `KeyError` otherwise. -/
def pyGet (conf : String → Option PyValue) (k : String) : Except PyError PyValue :=
  match conf k with
  | some v => .ok v
  | _ => .error (.keyError k)

/-- Embedding of `api.ApiConfig` as constructed by `get_api_config` (fields in keyword
order: test_mode, merchant_code, sp_code, terminal_id). -/
structure ApiConfig where
  test_mode : PyValue
  merchant_code : PyValue
  sp_code : PyValue
  terminal_id : PyValue
  deriving DecidableEq, Repr

/-- Embedding of `get_api_config` (plugin.py lines 31-37): builds an `ApiConfig` from the
configuration dict, reading the four keys in the order the keyword arguments
are evaluated. -/
def get_api_config (conf : String → Option PyValue) : Except PyError ApiConfig :=
  match pyGet conf USE_SANDBOX with
  | .error e => .error e
  | .ok test_mode =>
    match pyGet conf MERCHANT_CODE with
    | .error e => .error e
    | .ok merchant_code =>
      match pyGet conf SP_CODE with
      | .error e => .error e
      | .ok sp_code =>
        match pyGet conf TERMINAL_ID with
        | .error e => .error e
        | .ok terminal_id => .ok ⟨test_mode, merchant_code, sp_code, terminal_id⟩

/-- Embedding of `saleor.plugins.models.PluginConfiguration` as the two attributes the
classmethods read: the stored configuration items and the active flag. -/
structure PluginConfiguration where
  configuration : List ConfigItem
  active : Bool
  deriving DecidableEq, Repr

/-- Result of running one of the two validation classmethods: the normal
return or raised exception, the list of `api.health_check` calls the run
performed (in order, with the `ApiConfig` passed to each), and the
`plugin_configuration` argument as it stands after the call. -/
structure MethodResult where
  result : Except PyError Unit
  health_checks : List ApiConfig
  plugin_configuration : PluginConfiguration
  deriving Repr

/-- The message of the `ValidationError` raised by `validate_authentication`
(plugin.py line 131). -/
def authFailedMsg : String := "Authentication failed. Please check provided data."

/-- Embedding of `NPAtobaraiGatewayPlugin.validate_authentication` (plugin.py lines
117-133): rebuild the configuration dict, call `api.health_check` on the
`ApiConfig` built from it (the opentracing span bracketing the call carries
no data flow), and raise a `ValidationError` with code
`PLUGIN_MISCONFIGURED` when the response is falsy. The external
`api.health_check` is the parameter `health_check`. -/
def validate_authentication (health_check : ApiConfig → Bool)
    (plugin_configuration : PluginConfiguration) : MethodResult :=
  let conf := dictOf plugin_configuration.configuration
  match get_api_config conf with
  | .error e => ⟨.error e, [], plugin_configuration⟩
  | .ok cfg =>
      let response := health_check cfg
      if !response then
        ⟨.error (.validation ⟨authFailedMsg, .PLUGIN_MISCONFIGURED⟩),
          [cfg], plugin_configuration⟩
      else
        ⟨.ok (), [cfg], plugin_configuration⟩

/-- The prefix of the missing-fields error message (plugin.py lines
150-153). -/
def missingFieldsMsg : String :=
  "To enable a plugin, you need to provide values for the following fields: "

/-- Lines 138-146 of plugin.py: build the `missing_fields` list from the
configuration dict. Note the source appends `TERMINAL_ID` in the
`MERCHANT_CODE` branch. -/
def missing_fields_of (configuration : String → Option PyValue) :
    Except PyError (List String) :=
  match pyGet configuration MERCHANT_CODE with
  | .error e => .error e
  | .ok m =>
    let missing1 := if !m.truthy then [TERMINAL_ID] else []
    match pyGet configuration SP_CODE with
    | .error e => .error e
    | .ok s =>
      let missing2 := if !s.truthy then missing1 ++ [SP_CODE] else missing1
      match pyGet configuration TERMINAL_ID with
      | .error e => .error e
      | .ok t => .ok (if !t.truthy then missing2 ++ [TERMINAL_ID] else missing2)

/-- Embedding of `NPAtobaraiGatewayPlugin.validate_plugin_configuration` (plugin.py lines
135-159): compute the missing fields, then, only when the configuration is
active, raise the missing-fields `ValidationError` if any, otherwise defer
to `validate_authentication`. -/
def validate_plugin_configuration (health_check : ApiConfig → Bool)
    (plugin_configuration : PluginConfiguration) : MethodResult :=
  let configuration := dictOf plugin_configuration.configuration
  match missing_fields_of configuration with
  | .error e => ⟨.error e, [], plugin_configuration⟩
  | .ok missing_fields =>
      if plugin_configuration.active then
        if !missing_fields.isEmpty then
          ⟨.error (.validation
              ⟨missingFieldsMsg ++ String.intercalate ", " missing_fields,
                .PLUGIN_MISCONFIGURED⟩),
            [], plugin_configuration⟩
        else
          validate_authentication health_check plugin_configuration
      else
        ⟨.ok (), [], plugin_configuration⟩

/-- Embedding of `GatewayConfig` as constructed in `__init__` (the dataclass itself lives
in the gateway package outside the excerpt; the fields are the keyword
arguments passed at plugin.py lines 79-89). `connection_params` is a dict,
kept as its key/value pairs in insertion order. -/
structure GatewayConfig where
  gateway_name : String
  auto_capture : Bool
  supported_currencies : String
  connection_params : List (String × PyValue)
  deriving DecidableEq, Repr

/-- Embedding of `NPAtobaraiGatewayPlugin.SUPPORTED_CURRENCIES` (plugin.py line 44). -/
def SUPPORTED_CURRENCIES : String := "JPY"

/-- An `NPAtobaraiGatewayPlugin` instance: the stored configuration items
(kept by `BasePlugin.__init__`) and the `config` attribute built by
`__init__`. -/
structure NPAtobaraiGatewayPlugin where
  configuration : List ConfigItem
  config : GatewayConfig
  deriving DecidableEq, Repr

/-- Embedding of `NPAtobaraiGatewayPlugin.__init__` (plugin.py lines 76-89): build the
name/value dict from the stored configuration and construct the
`GatewayConfig` with `auto_capture=False`, the class's supported currencies,
and the four connection parameters (dict subscription can raise
`KeyError`). -/
def NPAtobaraiGatewayPlugin.init (configuration : List ConfigItem) :
    Except PyError NPAtobaraiGatewayPlugin :=
  let conf := dictOf configuration
  match pyGet conf MERCHANT_CODE with
  | .error e => .error e
  | .ok m =>
    match pyGet conf SP_CODE with
    | .error e => .error e
    | .ok s =>
      match pyGet conf TERMINAL_ID with
      | .error e => .error e
      | .ok t =>
        match pyGet conf USE_SANDBOX with
        | .error e => .error e
        | .ok sandbox =>
          .ok ⟨configuration,
            ⟨GATEWAY_NAME, false, SUPPORTED_CURRENCIES,
              [(MERCHANT_CODE, m), (SP_CODE, s), (TERMINAL_ID, t),
                ("sandbox_mode", sandbox)]⟩⟩

/-- Embedding of `NPAtobaraiGatewayPlugin._get_gateway_config` (plugin.py lines 91-92). -/
def NPAtobaraiGatewayPlugin.get_gateway_config
    (self : NPAtobaraiGatewayPlugin) : GatewayConfig :=
  self.config

/-- A call made to the external gateway module (`capture`, `refund`, `void`,
`process_payment` from `np_atobarai/__init__`), with the arguments it
received. -/
inductive ExtCall (PaymentData : Type) where
  | capture (payment_information : PaymentData) (config : GatewayConfig)
  | refund (payment_information : PaymentData) (config : GatewayConfig)
  | void (payment_information : PaymentData) (config : GatewayConfig)
  | process_payment (payment_information : PaymentData) (config : GatewayConfig)
  deriving DecidableEq, Repr

/-- The external gateway operations imported at plugin.py line 11; not in
the excerpt, so each is an arbitrary function from payment data and gateway
config to a gateway response. -/
structure ExtOps (PaymentData GatewayResponse : Type) where
  capture : PaymentData → GatewayConfig → GatewayResponse
  refund : PaymentData → GatewayConfig → GatewayResponse
  void : PaymentData → GatewayConfig → GatewayResponse
  process_payment : PaymentData → GatewayConfig → GatewayResponse

/-- Embedding of `NPAtobaraiGatewayPlugin.capture_payment` (plugin.py lines 94-97):
`return capture(payment_information, self._get_gateway_config())` — the
returned value paired with the one external call the body makes. -/
def NPAtobaraiGatewayPlugin.capture_payment {PaymentData GatewayResponse : Type}
    (ops : ExtOps PaymentData GatewayResponse) (self : NPAtobaraiGatewayPlugin)
    (payment_information : PaymentData) (previous_value : GatewayResponse) :
    GatewayResponse × List (ExtCall PaymentData) :=
  (ops.capture payment_information self.get_gateway_config,
    [.capture payment_information self.get_gateway_config])

/-- Embedding of `NPAtobaraiGatewayPlugin.refund_payment` (plugin.py lines 99-102). -/
def NPAtobaraiGatewayPlugin.refund_payment {PaymentData GatewayResponse : Type}
    (ops : ExtOps PaymentData GatewayResponse) (self : NPAtobaraiGatewayPlugin)
    (payment_information : PaymentData) (previous_value : GatewayResponse) :
    GatewayResponse × List (ExtCall PaymentData) :=
  (ops.refund payment_information self.get_gateway_config,
    [.refund payment_information self.get_gateway_config])

/-- Embedding of `NPAtobaraiGatewayPlugin.void_payment` (plugin.py lines 104-107). -/
def NPAtobaraiGatewayPlugin.void_payment {PaymentData GatewayResponse : Type}
    (ops : ExtOps PaymentData GatewayResponse) (self : NPAtobaraiGatewayPlugin)
    (payment_information : PaymentData) (previous_value : GatewayResponse) :
    GatewayResponse × List (ExtCall PaymentData) :=
  (ops.void payment_information self.get_gateway_config,
    [.void payment_information self.get_gateway_config])

/-- Embedding of `NPAtobaraiGatewayPlugin.process_payment` (plugin.py lines 109-112). -/
def NPAtobaraiGatewayPlugin.process_payment {PaymentData GatewayResponse : Type}
    (ops : ExtOps PaymentData GatewayResponse) (self : NPAtobaraiGatewayPlugin)
    (payment_information : PaymentData) (previous_value : GatewayResponse) :
    GatewayResponse × List (ExtCall PaymentData) :=
  (ops.process_payment payment_information self.get_gateway_config,
    [.process_payment payment_information self.get_gateway_config])

/-- Embedding of `NPAtobaraiGatewayPlugin.get_supported_currencies` (plugin.py lines
114-115): returns the class attribute, ignoring `previous_value`. -/
def NPAtobaraiGatewayPlugin.get_supported_currencies {A : Type}
    (self : NPAtobaraiGatewayPlugin) (previous_value : A) : String :=
  SUPPORTED_CURRENCIES

/-- Modelled from the spec: the `ConfigurationTypeField` enum lives in
`saleor.plugins.base_plugin`, outside the excerpt; the spec describes three
secret fields and one boolean field, so the two values the plugin uses are
the constructors. -/
inductive ConfigurationTypeField where
  | SECRET
  | BOOLEAN
  deriving DecidableEq, Repr

/-- One entry of `CONFIG_STRUCTURE`: the type, help text and label dict. -/
structure ConfigStructureEntry where
  type : ConfigurationTypeField
  help_text : String
  label : String
  deriving DecidableEq, Repr

/-- Embedding of `NPAtobaraiGatewayPlugin.DEFAULT_CONFIGURATION` (plugin.py lines
46-51). -/
def DEFAULT_CONFIGURATION : List ConfigItem :=
  [⟨MERCHANT_CODE, .none⟩,
   ⟨SP_CODE, .none⟩,
   ⟨TERMINAL_ID, .none⟩,
   ⟨USE_SANDBOX, .bool true⟩]

/-- Embedding of `NPAtobaraiGatewayPlugin.CONFIG_STRUCTURE` (plugin.py lines 53-74), as
its key/entry pairs in insertion order. -/
def CONFIG_STRUCTURE : List (String × ConfigStructureEntry) :=
  [(MERCHANT_CODE,
    ⟨.SECRET, "Provide NP後払い Merchant Code.", "Merchant Code"⟩),
   (SP_CODE,
    ⟨.SECRET, "Provide NP後払い SP Code.", "SP Code"⟩),
   (TERMINAL_ID,
    ⟨.SECRET, "Provide NP後払い Terminal ID.", "Terminal ID"⟩),
   (USE_SANDBOX,
    ⟨.BOOLEAN, "Determines if Saleor should use NP後払い sandbox API.",
      "Use sandbox"⟩)]

end NPAtobarai

namespace TaxE2E

/-!
Embedding of the expected-value arithmetic of
`test_order_calculate_simple_tax_based_on_product_tax_class_CORE_2006`.
Money amounts are embedded as rationals; Python's `round(x, 2)` rounds to
two decimal places, ties to the nearest even hundredth.
-/

/-- Round a rational to the nearest integer, ties to even (the rounding of
Python's built-in `round`). -/
def roundHalfEven (q : ℚ) : ℤ :=
  let f := ⌊q⌋
  let r := q - f
  if r < 1 / 2 then f
  else if r > 1 / 2 then f + 1
  else if f % 2 = 0 then f else f + 1

/-- Python's `round(x, 2)`: round to two decimal places, ties to even. -/
def pyRound2 (q : ℚ) : ℚ :=
  (roundHalfEven (q * 100) : ℚ) / 100

/-- Modelled from the spec: `prepare_shop` is outside the excerpt and echoes
the `product_tax_rate` it was handed (test lines 36 and 42), the product tax
class rate of 13 percent. -/
def product_tax_rate : ℚ := 13

/-- Modelled from the spec: `prepare_shop` echoes the `country_tax_rate` it
was handed (test lines 35 and 43), the country rate of 20 percent. -/
def country_tax_rate : ℚ := 20

/-- A net/tax/gross amount triple from a GraphQL response payload. -/
structure TaxedMoney where
  net : ℚ
  tax : ℚ
  gross : ℚ
  deriving DecidableEq, Repr

/-- Embedding of `calculated_tax` (test lines 84-87): the expected product-line tax. -/
def calculated_tax (product_variant_price : ℚ) : ℚ :=
  pyRound2 (product_variant_price * (product_tax_rate / 100))

/-- Embedding of `shipping_tax` (test line 104): the expected shipping tax. -/
def shipping_tax (shipping_price : ℚ) : ℚ :=
  pyRound2 (shipping_price * (country_tax_rate / 100))

/-- Embedding of `total_tax` (test line 105). -/
def total_tax (product_variant_price shipping_price : ℚ) : ℚ :=
  calculated_tax product_variant_price + shipping_tax shipping_price

/-- Embedding of `calculated_net` (test line 106). -/
def calculated_net (product_variant_price shipping_price : ℚ) : ℚ :=
  pyRound2 (product_variant_price + shipping_price)

/-- The equality assertions of steps 2-4 of the test (lines 88-92, 108-112,
121-125) on the three taxed amounts the service reports: the order total
after adding the product line (`line_total`), the shipping price after
selecting the shipping method (`shipping_total`), and the order total at
completion (`final_total`). -/
def orderTaxAsserts (product_variant_price shipping_price : ℚ)
    (line_total shipping_total final_total : TaxedMoney) : Prop :=
  line_total.net = product_variant_price ∧
  line_total.tax = calculated_tax product_variant_price ∧
  line_total.gross =
    pyRound2 (product_variant_price + calculated_tax product_variant_price) ∧
  shipping_total.net = shipping_price ∧
  shipping_total.tax = shipping_tax shipping_price ∧
  shipping_total.gross =
    pyRound2 (shipping_price + shipping_tax shipping_price) ∧
  final_total.tax = total_tax product_variant_price shipping_price ∧
  final_total.net = calculated_net product_variant_price shipping_price ∧
  final_total.gross =
    pyRound2 (calculated_net product_variant_price shipping_price +
      total_tax product_variant_price shipping_price)

/-- Embedding of `variant_price = "1234"` (test line 51), converted with `float` at test
line 74. -/
def variant_price : ℚ := 1234

end TaxE2E

namespace NPAtobarai

/-- A required configuration field is missing when the configuration dict
holds no truthy value for it: the key is absent, or its value is falsy
(`None`, the empty string or `False`). -/
def fieldMissing (conf : String → Option PyValue) (k : String) : Bool :=
  match conf k with
  | some v => !v.truthy
  | _ => true

/-- Helper: `validate_authentication` calls `api.health_check` at most
once. -/
theorem validate_authentication_trace_len (health_check : ApiConfig → Bool)
    (pc : PluginConfiguration) :
    (validate_authentication health_check pc).health_checks.length ≤ 1 := by
  unfold validate_authentication
  simp only []
  split
  · simp
  · split <;> simp

/-- Helper: when the computed `missing_fields` list is empty, none of the
three required fields is missing. -/
theorem missing_fields_of_ok_nil (conf : String → Option PyValue)
    (h : missing_fields_of conf = .ok []) :
    fieldMissing conf MERCHANT_CODE = false ∧ fieldMissing conf SP_CODE = false ∧
      fieldMissing conf TERMINAL_ID = false := by
  unfold missing_fields_of pyGet at h
  cases hm : conf MERCHANT_CODE with
  | none => simp [hm] at h
  | some m =>
    cases hs : conf SP_CODE with
    | none => simp [hm, hs] at h
    | some s =>
      cases ht : conf TERMINAL_ID with
      | none => simp [hm, hs, ht] at h
      | some t =>
        simp only [hm, hs, ht] at h
        unfold fieldMissing
        simp only [hm, hs, ht]
        split_ifs at h with h1 h2 h3 <;> simp_all

/-- Helper: the `missing_fields` list never contains `merchant_code` — the
merchant-code branch of `validate_plugin_configuration` appends
`TERMINAL_ID` instead. -/
theorem merchant_code_not_in_missing (conf : String → Option PyValue)
    (l : List String) (h : missing_fields_of conf = .ok l) :
    MERCHANT_CODE ∉ l := by
  unfold missing_fields_of pyGet at h
  cases hm : conf MERCHANT_CODE with
  | none => simp [hm] at h
  | some m =>
    cases hs : conf SP_CODE with
    | none => simp [hm, hs] at h
    | some s =>
      cases ht : conf TERMINAL_ID with
      | none => simp [hm, hs, ht] at h
      | some t =>
        simp only [hm, hs, ht, Except.ok.injEq] at h
        subst h
        split_ifs <;> decide

/-- C1: the claim states that whenever a required field is missing,
`validate_plugin_configuration` raises a `ValidationError` with code
`PLUGIN_MISCONFIGURED` whose message lists the names of the missing fields.
The code contradicts this: evaluated at an active configuration whose only
missing field is the merchant code, the raised message lists `terminal_id`,
not `merchant_code` (the merchant-code branch appends `TERMINAL_ID`). -/
theorem C1_merchant_missing_reported_as_terminal_id :
    (validate_plugin_configuration (fun _ => true)
        ⟨[⟨"merchant_code", .str ""⟩, ⟨"sp_code", .str "SP"⟩,
          ⟨"terminal_id", .str "T"⟩, ⟨"use_sandbox", .bool true⟩], true⟩).result =
      .error (.validation
        ⟨"To enable a plugin, you need to provide values for the following fields: terminal_id",
          .PLUGIN_MISCONFIGURED⟩) := by rfl

/-- C2: `validate_authentication` raises a `ValidationError` with code
`PLUGIN_MISCONFIGURED` if and only if the health check made with the API
config built from the stored configuration returns a falsy response, and
returns normally when the health check succeeds. -/
theorem C2_validate_authentication_iff_health_check
    (health_check : ApiConfig → Bool) (pc : PluginConfiguration) (cfg : ApiConfig)
    (h : get_api_config (dictOf pc.configuration) = .ok cfg) :
    ((validate_authentication health_check pc).result =
        .error (.validation ⟨authFailedMsg, .PLUGIN_MISCONFIGURED⟩) ↔
      health_check cfg = false) ∧
    (health_check cfg = true →
      (validate_authentication health_check pc).result = .ok ()) := by
  unfold validate_authentication
  simp only [h]
  cases hh : health_check cfg <;> simp [hh]

/-- Witness for C2 at a concrete configuration whose health check fails. -/
theorem C2_witness_health_check_failure :
    get_api_config (dictOf [⟨"merchant_code", .str "M"⟩, ⟨"sp_code", .str "S"⟩,
        ⟨"terminal_id", .str "T"⟩, ⟨"use_sandbox", .bool true⟩]) =
      .ok ⟨.bool true, .str "M", .str "S", .str "T"⟩ ∧
    (validate_authentication (fun _ => false)
        ⟨[⟨"merchant_code", .str "M"⟩, ⟨"sp_code", .str "S"⟩,
          ⟨"terminal_id", .str "T"⟩, ⟨"use_sandbox", .bool true⟩], true⟩).result =
      .error (.validation ⟨authFailedMsg, .PLUGIN_MISCONFIGURED⟩) :=
  ⟨rfl,
    ((C2_validate_authentication_iff_health_check (fun _ => false)
      ⟨[⟨"merchant_code", .str "M"⟩, ⟨"sp_code", .str "S"⟩,
        ⟨"terminal_id", .str "T"⟩, ⟨"use_sandbox", .bool true⟩], true⟩
      ⟨.bool true, .str "M", .str "S", .str "T"⟩ rfl).1).mpr rfl⟩

/-- C3: on a configuration mapping containing the four keys,
`get_api_config` returns an `ApiConfig` whose `test_mode` is the
`use_sandbox` value and whose `merchant_code`, `sp_code` and `terminal_id`
fields carry the values stored under the corresponding keys. -/
theorem C3_get_api_config_fields
    (conf : String → Option PyValue) (u m s t : PyValue)
    (hu : conf USE_SANDBOX = some u) (hm : conf MERCHANT_CODE = some m)
    (hs : conf SP_CODE = some s) (ht : conf TERMINAL_ID = some t) :
    get_api_config conf = .ok ⟨u, m, s, t⟩ := by
  unfold get_api_config pyGet
  simp only [hu, hm, hs, ht]

/-- Witness for C3 at a concrete configuration dict. -/
theorem C3_witness_concrete_conf :
    dictOf [⟨"merchant_code", .str "mc"⟩, ⟨"sp_code", .str "sp"⟩,
        ⟨"terminal_id", .str "tid"⟩, ⟨"use_sandbox", .bool false⟩] USE_SANDBOX =
      some (.bool false) ∧
    dictOf [⟨"merchant_code", .str "mc"⟩, ⟨"sp_code", .str "sp"⟩,
        ⟨"terminal_id", .str "tid"⟩, ⟨"use_sandbox", .bool false⟩] MERCHANT_CODE =
      some (.str "mc") ∧
    get_api_config (dictOf [⟨"merchant_code", .str "mc"⟩, ⟨"sp_code", .str "sp"⟩,
        ⟨"terminal_id", .str "tid"⟩, ⟨"use_sandbox", .bool false⟩]) =
      .ok ⟨.bool false, .str "mc", .str "sp", .str "tid"⟩ :=
  ⟨rfl, rfl,
    C3_get_api_config_fields _ _ _ _ _ rfl rfl rfl rfl⟩

/-- C4: each of the four payment hooks makes exactly one call to the
corresponding external operation, passing the payment information and the
plugin's gateway config, and returns that operation's result unchanged;
`previous_value` has no effect on the result. -/
theorem C4_hooks_delegate_once {PaymentData GatewayResponse : Type}
    (ops : ExtOps PaymentData GatewayResponse) (self : NPAtobaraiGatewayPlugin)
    (payment_information : PaymentData) (pv pv' : GatewayResponse) :
    (self.capture_payment ops payment_information pv =
        (ops.capture payment_information self.config,
          [.capture payment_information self.config]) ∧
      self.capture_payment ops payment_information pv =
        self.capture_payment ops payment_information pv') ∧
    (self.refund_payment ops payment_information pv =
        (ops.refund payment_information self.config,
          [.refund payment_information self.config]) ∧
      self.refund_payment ops payment_information pv =
        self.refund_payment ops payment_information pv') ∧
    (self.void_payment ops payment_information pv =
        (ops.void payment_information self.config,
          [.void payment_information self.config]) ∧
      self.void_payment ops payment_information pv =
        self.void_payment ops payment_information pv') ∧
    (self.process_payment ops payment_information pv =
        (ops.process_payment payment_information self.config,
          [.process_payment payment_information self.config]) ∧
      self.process_payment ops payment_information pv =
        self.process_payment ops payment_information pv') :=
  ⟨⟨rfl, rfl⟩, ⟨rfl, rfl⟩, ⟨rfl, rfl⟩, ⟨rfl, rfl⟩⟩

/-- C5: `validate_plugin_configuration` invokes the authentication health
check at most once per call, and never invokes it when any required field
(merchant code, SP code, terminal ID) is missing — the missing-fields error
is raised first. -/
theorem C5_health_check_at_most_once_after_field_check
    (health_check : ApiConfig → Bool) (pc : PluginConfiguration) :
    (validate_plugin_configuration health_check pc).health_checks.length ≤ 1 ∧
    ((fieldMissing (dictOf pc.configuration) MERCHANT_CODE ||
        fieldMissing (dictOf pc.configuration) SP_CODE ||
        fieldMissing (dictOf pc.configuration) TERMINAL_ID) = true →
      (validate_plugin_configuration health_check pc).health_checks = []) := by
  unfold validate_plugin_configuration
  simp only []
  split
  · exact ⟨by simp, fun _ => rfl⟩
  · rename_i missing_fields hok
    split
    · split
      · exact ⟨by simp, fun _ => rfl⟩
      · rename_i hact hne
        refine ⟨validate_authentication_trace_len health_check pc, fun hmiss => ?_⟩
        exfalso
        have hnil : missing_fields = [] := by
          simp only [Bool.not_eq_true'] at hne
          simpa using hne
        rcases missing_fields_of_ok_nil _ (hnil ▸ hok) with ⟨h1, h2, h3⟩
        simp [h1, h2, h3] at hmiss
    · exact ⟨by simp, fun _ => rfl⟩

/-- Witness for C5 at an active configuration with an empty merchant code:
a field is missing and no health check is made. -/
theorem C5_witness_missing_field_no_health_check :
    (fieldMissing (dictOf [⟨"merchant_code", .str ""⟩, ⟨"sp_code", .str "S"⟩,
        ⟨"terminal_id", .str "T"⟩, ⟨"use_sandbox", .bool true⟩]) MERCHANT_CODE ||
      fieldMissing (dictOf [⟨"merchant_code", .str ""⟩, ⟨"sp_code", .str "S"⟩,
        ⟨"terminal_id", .str "T"⟩, ⟨"use_sandbox", .bool true⟩]) SP_CODE ||
      fieldMissing (dictOf [⟨"merchant_code", .str ""⟩, ⟨"sp_code", .str "S"⟩,
        ⟨"terminal_id", .str "T"⟩, ⟨"use_sandbox", .bool true⟩]) TERMINAL_ID) = true ∧
    (validate_plugin_configuration (fun _ => true)
        ⟨[⟨"merchant_code", .str ""⟩, ⟨"sp_code", .str "S"⟩,
          ⟨"terminal_id", .str "T"⟩, ⟨"use_sandbox", .bool true⟩], true⟩).health_checks =
      [] :=
  ⟨rfl,
    (C5_health_check_at_most_once_after_field_check (fun _ => true)
      ⟨[⟨"merchant_code", .str ""⟩, ⟨"sp_code", .str "S"⟩,
        ⟨"terminal_id", .str "T"⟩, ⟨"use_sandbox", .bool true⟩], true⟩).2 rfl⟩

/-- C6: the configuration schema has exactly the four fields merchant_code,
sp_code, terminal_id and use_sandbox: `DEFAULT_CONFIGURATION` holds exactly
these four names, with `use_sandbox` defaulting to `True` and the other
three to `None`, and `CONFIG_STRUCTURE` has exactly these four keys, with
`use_sandbox` a boolean field and the other three secret fields. -/
theorem C6_configuration_schema :
    DEFAULT_CONFIGURATION.map ConfigItem.name =
      [MERCHANT_CODE, SP_CODE, TERMINAL_ID, USE_SANDBOX] ∧
    DEFAULT_CONFIGURATION.map ConfigItem.value =
      [.none, .none, .none, .bool true] ∧
    CONFIG_STRUCTURE.map Prod.fst =
      [MERCHANT_CODE, SP_CODE, TERMINAL_ID, USE_SANDBOX] ∧
    CONFIG_STRUCTURE.map (fun e => e.2.type) =
      [.SECRET, .SECRET, .SECRET, .BOOLEAN] :=
  ⟨rfl, rfl, rfl, rfl⟩

/-- C8: when the merchant code is the only missing required field in an
active configuration, the raised `ValidationError` names `terminal_id` in
its message, and `merchant_code` never appears in the missing-fields list
for any input — the merchant-code branch appends `TERMINAL_ID` instead of
`MERCHANT_CODE`. -/
theorem C8_merchant_branch_appends_terminal_id
    (health_check : ApiConfig → Bool) (pc : PluginConfiguration)
    (vm vs vt : PyValue) (hactive : pc.active = true)
    (hm : dictOf pc.configuration MERCHANT_CODE = some vm) (hmf : vm.truthy = false)
    (hs : dictOf pc.configuration SP_CODE = some vs) (hst : vs.truthy = true)
    (ht : dictOf pc.configuration TERMINAL_ID = some vt) (htt : vt.truthy = true) :
    (validate_plugin_configuration health_check pc).result =
      .error (.validation ⟨missingFieldsMsg ++ TERMINAL_ID, .PLUGIN_MISCONFIGURED⟩) ∧
    ∀ (conf : String → Option PyValue) (l : List String),
      missing_fields_of conf = .ok l → MERCHANT_CODE ∉ l := by
  refine ⟨?_, merchant_code_not_in_missing⟩
  have hmf' : missing_fields_of (dictOf pc.configuration) = .ok [TERMINAL_ID] := by
    unfold missing_fields_of pyGet
    simp [hm, hs, ht, hmf, hst, htt]
  unfold validate_plugin_configuration
  simp only [hmf', hactive]
  rfl

/-- Witness for C8 at an active configuration whose only missing field is
the merchant code. -/
theorem C8_witness_merchant_only_missing :
    (⟨[⟨"merchant_code", .str ""⟩, ⟨"sp_code", .str "S"⟩,
        ⟨"terminal_id", .str "T"⟩, ⟨"use_sandbox", .bool true⟩], true⟩ :
          PluginConfiguration).active = true ∧
    (validate_plugin_configuration (fun _ => true)
        ⟨[⟨"merchant_code", .str ""⟩, ⟨"sp_code", .str "S"⟩,
          ⟨"terminal_id", .str "T"⟩, ⟨"use_sandbox", .bool true⟩], true⟩).result =
      .error (.validation ⟨missingFieldsMsg ++ TERMINAL_ID, .PLUGIN_MISCONFIGURED⟩) :=
  ⟨rfl,
    (C8_merchant_branch_appends_terminal_id (fun _ => true)
      ⟨[⟨"merchant_code", .str ""⟩, ⟨"sp_code", .str "S"⟩,
        ⟨"terminal_id", .str "T"⟩, ⟨"use_sandbox", .bool true⟩], true⟩
      (.str "") (.str "S") (.str "T") rfl rfl rfl rfl rfl rfl rfl).1⟩

/-- C9: every successfully constructed plugin instance has a gateway config
with `auto_capture = False` and supported currencies "JPY", and
`get_supported_currencies` returns "JPY" for every `previous_value`. -/
theorem C9_gateway_config_invariants (configuration : List ConfigItem)
    (plugin : NPAtobaraiGatewayPlugin)
    (h : NPAtobaraiGatewayPlugin.init configuration = .ok plugin) :
    plugin.config.auto_capture = false ∧
    plugin.config.supported_currencies = "JPY" ∧
    ∀ (A : Type) (previous_value : A),
      plugin.get_supported_currencies previous_value = "JPY" := by
  unfold NPAtobaraiGatewayPlugin.init at h
  simp only [] at h
  split at h
  · cases h
  · split at h
    · cases h
    · split at h
      · cases h
      · split at h
        · cases h
        · cases h
          exact ⟨rfl, rfl, fun A pv => rfl⟩

/-- Witness for C9 at the default configuration. -/
theorem C9_witness_default_configuration :
    NPAtobaraiGatewayPlugin.init DEFAULT_CONFIGURATION =
      .ok ⟨DEFAULT_CONFIGURATION,
        ⟨GATEWAY_NAME, false, SUPPORTED_CURRENCIES,
          [(MERCHANT_CODE, .none), (SP_CODE, .none), (TERMINAL_ID, .none),
            ("sandbox_mode", .bool true)]⟩⟩ ∧
    (⟨DEFAULT_CONFIGURATION,
        ⟨GATEWAY_NAME, false, SUPPORTED_CURRENCIES,
          [(MERCHANT_CODE, .none), (SP_CODE, .none), (TERMINAL_ID, .none),
            ("sandbox_mode", .bool true)]⟩⟩ :
      NPAtobaraiGatewayPlugin).config.auto_capture = false ∧
    (⟨DEFAULT_CONFIGURATION,
        ⟨GATEWAY_NAME, false, SUPPORTED_CURRENCIES,
          [(MERCHANT_CODE, .none), (SP_CODE, .none), (TERMINAL_ID, .none),
            ("sandbox_mode", .bool true)]⟩⟩ :
      NPAtobaraiGatewayPlugin).get_supported_currencies (0 : Nat) = "JPY" :=
  ⟨rfl,
    (C9_gateway_config_invariants DEFAULT_CONFIGURATION _ rfl).1,
    (C9_gateway_config_invariants DEFAULT_CONFIGURATION _ rfl).2.2 Nat 0⟩

/-- C10: neither validation classmethod modifies the plugin configuration it
receives — the configuration items and the active flag are identical before
and after the call, whether it returns normally or raises. -/
theorem C10_validation_preserves_plugin_configuration
    (health_check : ApiConfig → Bool) (pc : PluginConfiguration) :
    ((validate_plugin_configuration health_check pc).plugin_configuration.configuration =
        pc.configuration ∧
      (validate_plugin_configuration health_check pc).plugin_configuration.active =
        pc.active) ∧
    ((validate_authentication health_check pc).plugin_configuration.configuration =
        pc.configuration ∧
      (validate_authentication health_check pc).plugin_configuration.active =
        pc.active) := by
  have h1 : (validate_authentication health_check pc).plugin_configuration = pc := by
    unfold validate_authentication
    simp only []
    split
    · rfl
    · split <;> rfl
  have h2 : (validate_plugin_configuration health_check pc).plugin_configuration = pc := by
    unfold validate_plugin_configuration
    simp only []
    split
    · rfl
    · split
      · split
        · rfl
        · exact h1
      · rfl
  exact ⟨⟨by rw [h2], by rw [h2]⟩, ⟨by rw [h1], by rw [h1]⟩⟩

end NPAtobarai

namespace TaxE2E

/-- C7: the expected amounts asserted against the service satisfy the
claimed arithmetic — the product line tax equals `round` of net price times
the 13 percent product tax class rate over 100 to two decimals, the shipping
tax equals `round` of shipping net times the 20 percent country rate over
100 to two decimals, and each asserted gross equals `round` of net plus tax
to two decimals. -/
theorem C7_expected_tax_arithmetic
    (product_variant_price shipping_price : ℚ)
    (line_total shipping_total final_total : TaxedMoney)
    (h : orderTaxAsserts product_variant_price shipping_price
      line_total shipping_total final_total) :
    line_total.tax = pyRound2 (line_total.net * (13 / 100)) ∧
    shipping_total.tax = pyRound2 (shipping_total.net * (20 / 100)) ∧
    line_total.gross = pyRound2 (line_total.net + line_total.tax) ∧
    shipping_total.gross = pyRound2 (shipping_total.net + shipping_total.tax) ∧
    final_total.gross = pyRound2 (final_total.net + final_total.tax) := by
  obtain ⟨h1, h2, h3, h4, h5, h6, h7, h8, h9⟩ := h
  refine ⟨?_, ?_, ?_, ?_, ?_⟩ <;>
    simp_all [calculated_tax, shipping_tax, total_tax, calculated_net,
      product_tax_rate, country_tax_rate]

/-- Witness for C7 at the test's variant price of 1234 and a shipping price
of 10: the line tax is 160.42, the shipping tax 2, the final gross
1406.42. -/
theorem C7_witness_concrete_amounts :
    orderTaxAsserts 1234 10 ⟨1234, 8021/50, 69721/50⟩ ⟨10, 2, 12⟩
      ⟨1244, 8121/50, 70321/50⟩ ∧
    (8021/50 : ℚ) = pyRound2 (1234 * (13 / 100)) := by
  have hA : orderTaxAsserts 1234 10 ⟨1234, 8021/50, 69721/50⟩ ⟨10, 2, 12⟩
      ⟨1244, 8121/50, 70321/50⟩ := by
    norm_num [orderTaxAsserts, calculated_tax, shipping_tax, total_tax,
      calculated_net, product_tax_rate, country_tax_rate, pyRound2, roundHalfEven]
  refine ⟨hA, ?_⟩
  have := (C7_expected_tax_arithmetic 1234 10 ⟨1234, 8021/50, 69721/50⟩ ⟨10, 2, 12⟩
    ⟨1244, 8121/50, 70321/50⟩ hA).1
  simpa using this

end TaxE2E
